import Mathlib

/-!
Verification of the SMP bring-up core of kernel/arch/x86_64/smp.c.

The development is a shallow embedding of the C source: physical memory is a
byte map `Nat → Nat`, machine-integer truncation is written out as `% 2^w`
where the C code relies on it, loops whose C termination is data-dependent
take an explicit fuel argument and return `Option` (with `none` modelling a
loop that never exits), and hardware effects (LAPIC MMIO, log lines, frame
operations) are recorded in the result rather than performed.
-/

set_option maxRecDepth 4096

/-- The pair of fields of a `processor_local_data` slot that the MADT walk in
`smp_initialize` assigns (`cpu_id` and `lapic_id`, smp.c lines 289-290). -/
structure CoreDesc where
  cpu_id : Nat
  lapic_id : Nat
deriving Repr, DecidableEq, Inhabited

/-- The MADT entry walk of `smp_initialize` (smp.c lines 281-296), embedded
over the raw bytes of the entry region (`madt->entries` up to
`table + madt->header.length`).  `bytes` is the remaining byte suffix of the
region (the C pointer `entry` advanced past the consumed prefix), `cores` is
the running CPU count.  Each step reads `entry[0]` (type), `entry[1]`
(length), `entry[3]` (APIC id) and `entry[4]` (flags) with `getD _ 0`;
a type-0 entry with flag bit 0 set appends a descriptor unless `cores == 32`,
in which case the C code prints "too many cores" and leaves via
`goto _toomany` (the `true` flag below).  The walk advances by `entry[1]`
bytes; an advance of 0 repeats the same position, so C termination is
data-dependent and the embedding uses fuel: `none` models an infinite loop. -/
def madtWalk : Nat → List Nat → Nat → Option (List CoreDesc × Bool)
  | 0, _, _ => none
  | _ + 1, [], _ => some ([], false)
  | fuel + 1, b :: rest, cores =>
    let entry := b :: rest
    if entry.getD 0 0 = 0 ∧ (entry.getD 4 0) % 2 = 1 then
      if cores = 32 then
        some ([], true)
      else
        (madtWalk fuel (entry.drop (entry.getD 1 0)) (cores + 1)).map
          fun pr => (⟨cores, entry.getD 3 0⟩ :: pr.1, pr.2)
    else
      madtWalk fuel (entry.drop (entry.getD 1 0)) cores

/-- Decides whether every position the MADT entry walk visits in `bytes` has a
length byte (`entry[1]`) of at least 1, i.e. whether the C loop pointer
strictly advances at every step until it leaves the region. -/
def walkAdvances : Nat → List Nat → Bool
  | 0, _ => false
  | _ + 1, [] => true
  | fuel + 1, b :: rest =>
    decide (1 ≤ (b :: rest).getD 1 0) &&
      walkAdvances fuel ((b :: rest).drop ((b :: rest).getD 1 0))

/-- The signature test of the RSDP scan loop (smp.c lines 237-243): the C code
compares exactly the seven bytes 'R','S','D',' ','P','T','R' at `_scan[0..6]`;
the trailing space of the full 8-byte ACPI signature is not examined. -/
def sigAt (mem : Nat → Nat) (p : Nat) : Bool :=
  mem p = 82 && mem (p + 1) = 83 && mem (p + 2) = 68 && mem (p + 3) = 32 &&
    mem (p + 4) = 80 && mem (p + 5) = 84 && mem (p + 6) = 82

/-- One probe sequence of the scan loop `for (; scan < scan_top; scan += 16)`
(smp.c line 235): while `s < top`, test the signature at `s` and step by 16.
The loop makes at most `top - base` probes, so the fuel `top - base` supplied
by `rsdpScan` is exact; the fuel argument only makes the recursion
structural. -/
def scanFrom (mem : Nat → Nat) (top : Nat) : Nat → Nat → Option Nat
  | 0, _ => none
  | fuel + 1, s =>
    if s < top then
      if sigAt mem s then some s else scanFrom mem top fuel (s + 16)
    else
      none

/-- The RSDP locator loop of `smp_initialize` (smp.c lines 235-247): returns
the first 16-byte-stride offset in `[base, top)` whose bytes match the
(7-byte) signature, or `none` when the loop exits with `good == 0`. -/
def rsdpScan (mem : Nat → Nat) (base top : Nat) : Option Nat :=
  scanFrom mem top (top - base) base

/-- The digit loop of `xtoi` (smp.c lines 195-205); `out` is a C `uintptr_t`,
so every update truncates modulo 2^64. -/
def xtoiGo : List Char → Nat → Nat
  | [], out => out
  | c :: cs, out =>
    let o1 := out * 16 % 2 ^ 64
    let o2 :=
      if '0' ≤ c ∧ c ≤ '9' then (o1 + (c.toNat - '0'.toNat)) % 2 ^ 64
      else if 'a' ≤ c ∧ c ≤ 'f' then (o1 + (c.toNat - 'a'.toNat + 10)) % 2 ^ 64
      else if 'A' ≤ c ∧ c ≤ 'F' then (o1 + (c.toNat - 'A'.toNat + 10)) % 2 ^ 64
      else o1
    xtoiGo cs o2

/-- `xtoi` (smp.c lines 189-208): hexadecimal string to integer, skipping an
optional "0x" prefix; non-hex characters still multiply the accumulator. -/
def xtoi (s : List Char) : Nat :=
  match s with
  | '0' :: 'x' :: rest => xtoiGo rest 0
  | _ => xtoiGo s 0

/-- The boot-information inputs `smp_initialize` consults when choosing the
RSDP scan base (smp.c lines 216-233): multiboot-2 flag, the addresses returned
by `mboot2_find_tag` for tag types 14 and 15 (0 when absent, as in C),
multiboot-1 `config_table`, and the `acpi=` command-line value. -/
structure BootInfo where
  is2 : Bool
  tag14 : Nat
  tag15 : Nat
  configTable : Nat
  acpiArg : Option (List Char)
deriving Repr, DecidableEq, Inhabited

/-- The multiboot-2 tag address picked at smp.c lines 220-221: tag type 14,
falling back to tag type 15 when the first lookup returns null. -/
def mb2tag (bi : BootInfo) : Nat :=
  if bi.tag14 ≠ 0 then bi.tag14 else bi.tag15

/-- The scan-base/scan-top selection of `smp_initialize` (smp.c lines
212-233).  The defaults are `scan = 0xE0000`, `scan_top = 0x100000`; each of
the three explicit sources overwrites both (`scan_top = scan + 0x100000`),
while the legacy fallback keeps the default top `0x100000`. -/
def scanRange (bi : BootInfo) : Nat × Nat :=
  if bi.is2 then
    (mb2tag bi + 8, mb2tag bi + 8 + 0x100000)
  else if bi.configTable ≠ 0 then
    (bi.configTable, bi.configTable + 0x100000)
  else
    match bi.acpiArg with
    | some s => (xtoi s, xtoi s + 0x100000)
    | none => (0xE0000, 0x100000)

/-- Little-endian 32-bit load from the byte map, as the C code's struct field
reads of `uint32_t` members perform. -/
def read32 (mem : Nat → Nat) (a : Nat) : Nat :=
  mem a % 256 + mem (a + 1) % 256 * 256 + mem (a + 2) % 256 * 65536 +
    mem (a + 3) % 256 * 16777216

/-- Modelled from the spec: the checksum loop of smp.c lines 257-261 sums
`sizeof(struct rsdp_descriptor)` bytes into a `uint8_t`; the struct is
declared in kernel/arch/x86_64/acpi.h, which is not among the provided
sources.  Spec section 6 fixes the layout: "RSDP descriptor (v1 layout, 20
bytes, signature \"RSD PTR \")", with `rsdt_address` as the final 32-bit
field (so at offset 16).  The sum is therefore over 20 bytes, accumulated
modulo 256. -/
def rsdpChecksum (mem : Nat → Nat) (p : Nat) : Nat :=
  (List.range 20).foldl (fun acc k => (acc + mem (p + k)) % 256) 0

/-- The diagnostic printed at smp.c line 263. -/
def badChecksumMsg : String :=
  "smp: Bad checksum on RSDP (add \x27noacpichecksum\x27 to ignore this)"

/-- Inputs of `smp_initialize`: physical memory, boot information, the
command-line switches it reads (`nosmp`, `noacpichecksum`; the `acpi=` value
lives in `boot`), the prior values of the globals `processor_count` and
`lapic_final` (set elsewhere in the kernel; 1 and 0 at boot), and the values
produced by its collaborators: `mmioMap` for `mmu_map_mmio_region`,
`freshFrame` for `mmu_allocate_a_frame`, `blob` for the bytes of the
`__ap_bootstrap` code between `_ap_bootstrap_start` and `_ap_bootstrap_end`,
and `gdtpOff`/`gdtBytes` for the offset of `_ap_bootstrap_gdtp` within the
blob and the bytes `gdt_copy_to_trampoline(i, _)` writes there for AP `i`. -/
structure SmpEnv where
  mem : Nat → Nat
  boot : BootInfo
  nosmp : Bool
  noacpichecksum : Bool
  pc0 : Nat
  lf0 : Nat
  mmioMap : Nat → Nat
  freshFrame : Nat
  blob : List Nat
  gdtpOff : Nat
  gdtBytes : Nat → List Nat

/-- The return site through which `smp_initialize` left. -/
inductive SmpExit where
  | noRsdp
  | badChecksum
  | nosmpExit
  | noLapicBase
  | singleCore
  | success
deriving Repr, DecidableEq, Inhabited

/-- Observable outcome of `smp_initialize`: final `processor_count` and
`lapic_final`, the `(cpu_id, lapic_id)` descriptors the MADT walk stored,
the log lines printed, final physical memory, the `(lapic_id, command)`
pairs passed to `lapic_send_ipi`, the argument of `mmu_frame_clear` if it
was called, whether execution reached the RSDT/MADT parse (past smp.c line
269), and the exit site. -/
structure SmpResult where
  pc : Nat
  lf : Nat
  descs : List CoreDesc
  logs : List String
  mem : Nat → Nat
  ipis : List (Nat × Nat)
  frameCleared : Option Nat
  reachedRsdt : Bool
  exit : SmpExit

/-- `memcpy(base, bs, bs.length)` on the byte map. -/
def writeBytes (m : Nat → Nat) (base : Nat) (bs : List Nat) : Nat → Nat :=
  fun a => if base ≤ a ∧ a < base + bs.length then bs.getD (a - base) 0 else m a

/-- `memcpy(dst, src, 0x1000)` on the byte map: the two page-sized copies of
smp.c lines 312 and 340. -/
def pageCopy (m : Nat → Nat) (dst src : Nat) : Nat → Nat :=
  fun a => if dst ≤ a ∧ a < dst + 0x1000 then m (src + (a - dst)) else m a

/-- The per-AP bring-up loop of `smp_initialize` (smp.c lines 317-337) over
the list of AP indices: for each `i` it patches the per-AP GDT pointer into
the trampoline page (`gdt_copy_to_trampoline`, whose writes land at physical
`0x1000 + gdtpOff`) and sends the INIT (0x4500) and SIPI (0x4601) pairs to
`processor_local_data[i].lapic_id`.  The `_ap_startup_flag` handshake and
`short_delay` are liveness-only and leave no modelled state. -/
def apLoopGo (env : SmpEnv) (descs : List CoreDesc) :
    List Nat → (Nat → Nat) → (Nat → Nat) × List (Nat × Nat)
  | [], m => (m, [])
  | i :: is, m =>
    let m1 := writeBytes m (0x1000 + env.gdtpOff) (env.gdtBytes i)
    let r := apLoopGo env descs is m1
    (r.1, ((descs.getD i default).lapic_id, 0x4500) ::
      ((descs.getD i default).lapic_id, 0x4601) :: r.2)

/-- The RSDT pointer-array loop of `smp_initialize` (smp.c lines 275-298):
iterate `rem` table pointers starting at index `i` of `rsdt->pointers`
(offset 36 of the RSDT); for each table whose first four bytes are "APIC",
record `madt->lapic_addr` (offset 36) and run the MADT entry walk on the
region `[table + 44, table + header.length)` (the entries start after the
36-byte SDT header, the 4-byte `lapic_addr` and the 4-byte flags word).
State is `(cores, descriptors so far, lapic_base)`; the returned `Bool` is
the `goto _toomany` flag, which also aborts this outer loop.  The MADT walk
fuel `region.length + 34` covers every terminating C execution: each
iteration either advances at least one byte (at most `region.length` steps)
or repeats a zero-length enabled type-0 entry, which increments `cores` and
can happen at most 33 times before the `cores == 32` exit fires; `none`
therefore models exactly the C executions that never terminate. -/
def rsdtWalk (mem : Nat → Nat) (rsdtBase : Nat) :
    Nat → Nat → Nat → List CoreDesc → Nat → Option (Nat × List CoreDesc × Nat × Bool)
  | _, 0, cores, descs, lb => some (cores, descs, lb, false)
  | i, rem + 1, cores, descs, lb =>
    let table := read32 mem (rsdtBase + 36 + 4 * i)
    if mem table % 256 = 65 ∧ mem (table + 1) % 256 = 80 ∧
        mem (table + 2) % 256 = 73 ∧ mem (table + 3) % 256 = 67 then
      let mlen := read32 mem (table + 4)
      let lb1 := read32 mem (table + 36)
      let region := (List.range (mlen - 44)).map fun k => mem (table + 44 + k)
      match madtWalk (region.length + 34) region cores with
      | none => none
      | some (newDescs, tooMany) =>
        if tooMany then
          some (cores + newDescs.length, descs ++ newDescs, lb1, true)
        else
          rsdtWalk mem rsdtBase (i + 1) rem (cores + newDescs.length)
            (descs ++ newDescs) lb1
    else
      rsdtWalk mem rsdtBase (i + 1) rem cores descs lb

/-- The "too many cores" diagnostic emitted when the MADT walk left via
`goto _toomany` (smp.c lines 286-287). -/
def walkLogs (tooMany : Bool) : List String :=
  if tooMany then ["smp: too many cores"] else []

/-- The tail of `smp_initialize` after the MADT walk (smp.c lines 300-344,
from the `_toomany` label on): record `processor_count = cores`; return if
`lapic_base` is 0; map the LAPIC MMIO page; return if `cores <= 1`; else
save the trampoline page at 0x1000 to the scratch frame, install the
bootstrap blob, run the per-AP bring-up loop, restore the page, free the
scratch frame and log. -/
def smpPostWalk (env : SmpEnv) (cores : Nat) (descs : List CoreDesc)
    (lapicBase : Nat) (tooMany : Bool) : Option SmpResult :=
  if lapicBase = 0 then
    some { pc := cores, lf := env.lf0, descs := descs,
           logs := walkLogs tooMany, mem := env.mem, ipis := [],
           frameCleared := none, reachedRsdt := true, exit := .noLapicBase }
  else if cores ≤ 1 then
    some { pc := cores, lf := env.mmioMap lapicBase, descs := descs,
           logs := walkLogs tooMany, mem := env.mem, ipis := [],
           frameCleared := none, reachedRsdt := true, exit := .singleCore }
  else
    some { pc := cores, lf := env.mmioMap lapicBase, descs := descs,
           logs := walkLogs tooMany ++
             ["smp: enabled with " ++ toString cores ++ " cores"],
           mem := pageCopy
             (apLoopGo env descs (List.range' 1 (cores - 1))
               (writeBytes (pageCopy env.mem (env.freshFrame * 4096) 0x1000)
                 0x1000 env.blob)).1
             0x1000 (env.freshFrame * 4096),
           ipis := (apLoopGo env descs (List.range' 1 (cores - 1))
               (writeBytes (pageCopy env.mem (env.freshFrame * 4096) 0x1000)
                 0x1000 env.blob)).2,
           frameCleared := some (env.freshFrame * 4096),
           reachedRsdt := true, exit := .success }

/-- The pointer count of the RSDT loop (smp.c line 275): the C expression
`(rsdt->header.length - 36) / 4` with the subtraction in `uint32_t`
arithmetic, i.e. `(len + 2^32 - 36) % 2^32 / 4`.  Since `len` is a 32-bit
load (`read32` always returns a value below 2^32), the wrap-around case is
exactly `len < 36`, which is how the modulus is written here;
`u32count_eq` proves the two forms equal for every `len < 2^32`. -/
def u32count (len : Nat) : Nat :=
  (if 36 ≤ len then len - 36 else len + 2 ^ 32 - 36) / 4

/-- The RSDT/MADT stage of `smp_initialize` (smp.c lines 271-298): map the
RSDT at the RSDP's `rsdt_address` (the 32-bit field at RSDP offset 16),
walk its `u32count`-many table pointers, and hand the result to
`smpPostWalk`.  `none` models a MADT entry walk that never terminates. -/
def smpRsdtStage (env : SmpEnv) (p : Nat) : Option SmpResult :=
  match rsdtWalk env.mem (read32 env.mem (p + 16)) 0
      (u32count (read32 env.mem (read32 env.mem (p + 16) + 4)))
      0 [] 0 with
  | none => none
  | some (cores, descs, lapicBase, tooMany) =>
    smpPostWalk env cores descs lapicBase tooMany

/-- The checksum gate and `nosmp` opt-out of `smp_initialize` (smp.c lines
256-269), entered with the scan hit offset `p`. -/
def smpChecksumStage (env : SmpEnv) (p : Nat) : Option SmpResult :=
  if rsdpChecksum env.mem p ≠ 0 ∧ env.noacpichecksum = false then
    some { pc := env.pc0, lf := env.lf0, descs := [],
           logs := [badChecksumMsg], mem := env.mem, ipis := [],
           frameCleared := none, reachedRsdt := false, exit := .badChecksum }
  else if env.nosmp then
    some { pc := env.pc0, lf := env.lf0, descs := [], logs := [],
           mem := env.mem, ipis := [], frameCleared := none,
           reachedRsdt := false, exit := .nosmpExit }
  else
    smpRsdtStage env p

/-- `smp_initialize` (smp.c lines 210-344), composed of the stages above in
source order: scan-range selection, RSDP scan, checksum gate and `nosmp`
opt-out, RSDT/MADT walk, LAPIC mapping and AP bring-up.  The BSP-side
`load_processor_info()` call at line 249 writes only the identification
fields of the calling core's descriptor (modelled separately by
`loadProcInfo`) and is omitted from this memory-level result.  `none`
models a MADT entry walk that never terminates; every other path returns
`some`. -/
def smp_init (env : SmpEnv) : Option SmpResult :=
  match rsdpScan env.mem (scanRange env.boot).1 (scanRange env.boot).2 with
  | none =>
    some { pc := env.pc0, lf := env.lf0, descs := [],
           logs := ["smp: No RSD PTR found"], mem := env.mem, ipis := [],
           frameCleared := none, reachedRsdt := false, exit := .noRsdp }
  | some p => smpChecksumStage env p

/-- A full `processor_local_data` slot as the AP-side code touches it:
the discovery fields (`cpu_id`, `lapic_id`), the identification fields
filled by `load_processor_info`, and the pointers set by `ap_main`
(task pointers and `current_pml` are abstract handles). -/
structure ProcLocal where
  cpu_id : Nat := 0
  lapic_id : Nat := 0
  cpu_manufacturer : String := ""
  cpu_model : Nat := 0
  cpu_family : Nat := 0
  cpu_model_name : String := ""
  current_pml : Option Nat := none
  kernel_idle_task : Option Nat := none
  current_process : Option Nat := none
deriving Repr, DecidableEq, Inhabited

/-- The cpuid observations and collaborator results `ap_main` and
`load_processor_info` consume on the calling core: `ebx1` is `cpuid.1:ebx`,
`leaf0Ebx` is `cpuid.0:ebx` (vendor check), `leaf1Eax` is `cpuid.1:eax`
(family/model), `extMax` is `cpuid.0x80000000:eax`, `brand` the 48-byte
brand string, `spawn` the task handle `spawn_kidle` returns for a given
argument, and `initPml` the address of `init_page_region[0]`. -/
structure ApEnv where
  ebx1 : Nat
  leaf0Ebx : Nat
  leaf1Eax : Nat
  extMax : Nat
  brand : String
  spawn : Nat → Nat
  initPml : Nat

/-- `load_processor_info` (smp.c lines 142-171) running on the core whose
`processor_local_data` index is `selfIdx`: vendor string from leaf 0
(0x756e6547 is "Genu", 0x68747541 is "Auth"), base model `(eax >> 4) & 0xF`
and family `(eax >> 8) & 0xF` from leaf 1, and the brand string — written
to `processor_local_data[this_core->cpu_id]`, indexed by the slot's own
`cpu_id` field, not by `selfIdx` — defaulted to "(unknown)" and overwritten
from leaves 0x80000002-4 when `extMax ≥ 0x80000004`.

The vendor branch of `load_processor_info` (smp.c lines 146-158): it updates
only the `cpu_manufacturer`, `cpu_model` and `cpu_family` fields of the
calling core's slot. -/
def vendorUpdate (env : ApEnv) (c0 : ProcLocal) : ProcLocal :=
  if env.leaf0Ebx = 0x756e6547 then
    { c0 with cpu_manufacturer := "Intel",
              cpu_model := env.leaf1Eax / 16 % 16,
              cpu_family := env.leaf1Eax / 256 % 16 }
  else if env.leaf0Ebx = 0x68747541 then
    { c0 with cpu_manufacturer := "AMD",
              cpu_model := env.leaf1Eax / 16 % 16,
              cpu_family := env.leaf1Eax / 256 % 16 }
  else
    { c0 with cpu_manufacturer := "Unknown" }

/-- The remainder of `load_processor_info` (smp.c lines 142-171): the vendor
branch on the calling core's slot, then the brand-string writes, which land
at `processor_local_data[this_core->cpu_id]` — indexed by the slot's own
`cpu_id` field, not by `selfIdx`. -/
def loadProcInfo (env : ApEnv) (t : List ProcLocal) (selfIdx : Nat) :
    List ProcLocal :=
  let t1 := t.set selfIdx (vendorUpdate env (t.getD selfIdx default))
  let nameIdx := (t1.getD selfIdx default).cpu_id
  let t2 := t1.set nameIdx
    { t1.getD nameIdx default with cpu_model_name := "(unknown)" }
  if 0x80000004 ≤ env.extMax then
    t2.set nameIdx { t2.getD nameIdx default with cpu_model_name := env.brand }
  else
    t2

/-- `ap_main` (smp.c lines 110-140), the C entry point of an AP, with
`apCurrent` the published `_ap_current` index.  Returns the updated
`processor_local_data` table, the log lines printed, and the LAPIC MMIO
writes performed (the spurious-vector enable at offset 0x0F0).  The final
`_ap_startup_flag = 1` store and the non-returning `switch_next()` leave no
modelled state. -/
def ap_main (env : ApEnv) (apCurrent : Nat) (t : List ProcLocal) :
    List ProcLocal × List String × List (Nat × Nat) :=
  let c0 := t.getD apCurrent default
  let logs :=
    if c0.lapic_id ≠ env.ebx1 / 2 ^ 24 then ["smp: lapic id does not match"]
    else []
  let mmio := [(0x0F0, 0x127)]
  let k := env.spawn 0
  let c1 := { c0 with current_pml := some env.initPml,
                      kernel_idle_task := some k,
                      current_process := some k }
  let t1 := t.set apCurrent c1
  (loadProcInfo env t1 apCurrent, logs, mmio)

/-- The MMIO activity of one `lapic_send_ipi` call: the 32-bit stores
performed through `lapic_write` as `(address, value)` pairs in program
order, followed by the values the delivery-status poll loop read from
`lapic_final + 0x300`, in order. -/
structure IpiTrace where
  writes : List (Nat × Nat)
  reads : List Nat
deriving Repr, DecidableEq, Inhabited

/-- The delivery-status poll of `lapic_send_ipi` (smp.c line 185):
`do { pause } while (lapic_read(0x300) & (1 << 12))`.  `seq k` is the value
the k-th `lapic_read` returns (truncated to `uint32_t`); the loop runs until
a read with bit 12 clear, so its C termination depends on the device and the
embedding uses fuel, `none` modelling a poll that never ends. -/
def pollDS (seq : Nat → Nat) : Nat → Nat → Option (List Nat)
  | 0, _ => none
  | fuel + 1, k =>
    if (seq k % 2 ^ 32).testBit 12 then
      match pollDS seq fuel (k + 1) with
      | none => none
      | some vs => some (seq k % 2 ^ 32 :: vs)
    else
      some [seq k % 2 ^ 32]

/-- `lapic_send_ipi(i, val)` (smp.c lines 182-186): store `i << 24` at
`lapic_final + 0x310`, then `val` at `lapic_final + 0x300` (both through
`lapic_write`, which truncates to `uint32_t`), then poll bit 12 of offset
0x300 until it reads clear. -/
def lapic_send_ipi (lf : Nat) (seq : Nat → Nat) (fuel i val : Nat) :
    Option IpiTrace :=
  match pollDS seq fuel 0 with
  | none => none
  | some vs =>
    some { writes := [(lf + 0x310, i * 2 ^ 24 % 2 ^ 32),
                      (lf + 0x300, val % 2 ^ 32)],
           reads := vs }

/-- `arch_wakeup_others` (smp.c lines 346-352): no MMIO when
`lapic_final == 0` or `processor_count < 2`, else a broadcast IPI with
command `0x7E | (3 << 18)` to target field 0. -/
def arch_wakeup_others (lf pc : Nat) (seq : Nat → Nat) (fuel : Nat) :
    Option IpiTrace :=
  if lf = 0 ∨ pc < 2 then some { writes := [], reads := [] }
  else lapic_send_ipi lf seq fuel 0 (0x7E ||| (3 <<< 18))

/-- `arch_tick_others` (smp.c lines 354-357). -/
def arch_tick_others (lf pc : Nat) (seq : Nat → Nat) (fuel : Nat) :
    Option IpiTrace :=
  if lf = 0 ∨ pc < 2 then some { writes := [], reads := [] }
  else lapic_send_ipi lf seq fuel 0 (0x7B ||| (3 <<< 18))

/-- `arch_tlb_shootdown(vaddr)` (smp.c lines 359-368); `vaddr` is accepted
and ignored by the IPI encoding, exactly as in the source. -/
def arch_tlb_shootdown (lf pc : Nat) (vaddr : Nat) (seq : Nat → Nat)
    (fuel : Nat) : Option IpiTrace :=
  if lf = 0 ∨ pc < 2 then some { writes := [], reads := [] }
  else lapic_send_ipi lf seq fuel 0 (0x7C ||| (3 <<< 18))

/-- Enabled type-0 entries of a structured MADT entry list: those with
`entry[0] = 0` and flag bit 0 of `entry[4]` set, in order, each contributing
its APIC id byte `entry[3]`. -/
def enabledIds (es : List (List Nat)) : List Nat :=
  (es.filter fun e => decide (e.getD 0 0 = 0 ∧ e.getD 4 0 % 2 = 1)).map
    fun e => e.getD 3 0

/-- Well-formed MADT entry: the length byte `entry[1]` is the entry's actual
byte length, every entry carries at least its type and length bytes, and a
type-0 entry is long enough to contain its APIC id and flags bytes (ACPI
fixes its length at 8). -/
def entryWf (e : List Nat) : Prop :=
  e.getD 1 0 = e.length ∧ 2 ≤ e.length ∧ (e.getD 0 0 = 0 → 5 ≤ e.length)

instance (e : List Nat) : Decidable (entryWf e) := by
  unfold entryWf; infer_instance

/-- The descriptors `smp_initialize` stores for the enabled APIC ids `ids`
when `cores` already holds `c` entries: `cpu_id` fields count up from `c`. -/
def descsFrom : Nat → List Nat → List CoreDesc
  | _, [] => []
  | c, id :: ids => ⟨c, id⟩ :: descsFrom (c + 1) ids

/-- A 20-byte RSDP image with valid checksum: signature "RSD PTR ",
checksum byte 219 (the byte sum is 768, zero mod 256), zero OEM id and
revision, `rsdt_address = 0x600`. -/
def rsdpBytesGood : List Nat :=
  [82, 83, 68, 32, 80, 84, 82, 32, 219, 0, 0, 0, 0, 0, 0, 0, 0, 6, 0, 0]

/-- The same RSDP image with checksum byte 218, making the byte sum 255 mod
256. -/
def rsdpBytesBad : List Nat :=
  [82, 83, 68, 32, 80, 84, 82, 32, 218, 0, 0, 0, 0, 0, 0, 0, 0, 6, 0, 0]

/-- A 40-byte RSDT image: header length 40 and one subtable pointer, 0x700. -/
def rsdtBytes : List Nat :=
  [82, 83, 68, 84, 40, 0, 0, 0] ++ List.replicate 28 0 ++ [0, 7, 0, 0]

/-- A 60-byte MADT image: signature "APIC", header length 60,
`lapic_addr = 0xFEE00000`, and two enabled type-0 entries with APIC ids 5
and 7. -/
def madtBytes : List Nat :=
  [65, 80, 73, 67, 60, 0, 0, 0] ++ List.replicate 28 0 ++
    [0, 0, 0xE0, 0xFE] ++ [1, 0, 0, 0] ++
    [0, 8, 0, 5, 1, 0, 0, 0] ++ [0, 8, 1, 7, 1, 0, 0, 0]

/-- Physical memory holding the RSDP image `rsdp` at 0x500, the RSDT at
0x600 and the MADT at 0x700, zero elsewhere. -/
def memWith (rsdp : List Nat) : Nat → Nat := fun a =>
  if 0x500 ≤ a ∧ a < 0x514 then rsdp.getD (a - 0x500) 0
  else if 0x600 ≤ a ∧ a < 0x628 then rsdtBytes.getD (a - 0x600) 0
  else if 0x700 ≤ a ∧ a < 0x73C then madtBytes.getD (a - 0x700) 0
  else 0

/-- Multiboot-1 boot information whose `config_table` points at 0x500. -/
def wBoot : BootInfo :=
  { is2 := false, tag14 := 0, tag15 := 0, configTable := 0x500,
    acpiArg := none }

/-- A complete two-core environment on which `smp_initialize` succeeds. -/
def wEnv : SmpEnv :=
  { mem := memWith rsdpBytesGood, boot := wBoot, nosmp := false,
    noacpichecksum := false, pc0 := 1, lf0 := 0,
    mmioMap := fun b => b + 4096, freshFrame := 5, blob := [1, 2, 3],
    gdtpOff := 0x40, gdtBytes := fun _ => [9, 9] }

/-- `wEnv` with `nosmp` on the command line. -/
def env4w : SmpEnv := { wEnv with nosmp := true }

/-- `wEnv` with a corrupt RSDP checksum. -/
def envA7 : SmpEnv := { wEnv with mem := memWith rsdpBytesBad }

/-- `wEnv` with a corrupt RSDP checksum and `noacpichecksum` set. -/
def envB7 : SmpEnv :=
  { wEnv with mem := memWith rsdpBytesBad, noacpichecksum := true }

/-- A buffer whose first eight bytes are "RSD PTRX": the seven bytes the
scan loop compares match, the eighth byte is 88 ('X'), not the space the
full ACPI signature requires. -/
def cexMem : Nat → Nat := fun a =>
  [82, 83, 68, 32, 80, 84, 82, 88].getD a 0

/-- A buffer whose only signature occurrence starts at offset 8, which the
16-byte stride from base 0 never probes. -/
def memMisaligned : Nat → Nat := fun a =>
  if 8 ≤ a then cexMem (a - 8) else 0

/-- Boot information that selects the legacy EBDA fallback: not multiboot 2,
null `config_table`, no `acpi=` argument. -/
def legacyBoot : BootInfo :=
  { is2 := false, tag14 := 0, tag15 := 0, configTable := 0,
    acpiArg := none }

/-- A two-slot `processor_local_data` table as the BSP's MADT walk leaves
it: slot `i` has `cpu_id = i`. -/
def cexTable : List ProcLocal :=
  [{ cpu_id := 0, lapic_id := 0 }, { cpu_id := 1, lapic_id := 1 }]

/-- AP-side cpuid environment whose `spawn` distinguishes its argument:
`spawn 0 = 7`, `spawn 1 = 17`.  `ebx1 >> 24 = 1` matches slot 1's
`lapic_id`. -/
def cexApEnv : ApEnv :=
  { ebx1 := 0x01000000, leaf0Ebx := 0, leaf1Eax := 0, extMax := 0,
    brand := "", spawn := fun n => 10 * n + 7, initPml := 0 }

/-- A LAPIC delivery-status read sequence: bit 12 set on the first read,
clear on the second. -/
def wSeq : Nat → Nat := fun k => if k = 0 then 4096 else 0

/-- A three-entry MADT entry list: an enabled type-0 entry with APIC id 5, a
disabled type-0 entry, and a type-1 entry. -/
def wEs : List (List Nat) :=
  [[0, 8, 0, 5, 1, 0, 0, 0], [0, 8, 0, 7, 0, 0, 0, 0], [1, 2]]

theorem getD_set_self {α : Type} [Inhabited α] (l : List α) (i : Nat)
    (a d : α) (h : i < l.length) : (l.set i a).getD i d = a := by
  rw [List.getD_eq_getElem?_getD, List.getElem?_set_self h]
  rfl

theorem getD_set_ne {α : Type} [Inhabited α] (l : List α) (i j : Nat)
    (a d : α) (h : i ≠ j) : (l.set i a).getD j d = l.getD j d := by
  rw [List.getD_eq_getElem?_getD, List.getElem?_set_ne h,
    ← List.getD_eq_getElem?_getD]

theorem scanFrom_sound (mem : Nat → Nat) (top : Nat) :
    ∀ (fuel s p : Nat), scanFrom mem top fuel s = some p →
      s ≤ p ∧ p < top ∧ (p - s) % 16 = 0 ∧ sigAt mem p = true := by
  intro fuel
  induction fuel with
  | zero => intro s p h; simp [scanFrom] at h
  | succ n ih =>
    intro s p h
    simp only [scanFrom] at h
    by_cases hlt : s < top
    · rw [if_pos hlt] at h
      by_cases hsig : sigAt mem s
      · rw [if_pos hsig] at h
        injection h with h
        subst h
        exact ⟨le_refl _, hlt, by omega, hsig⟩
      · rw [if_neg hsig] at h
        obtain ⟨h1, h2, h3, h4⟩ := ih (s + 16) p h
        exact ⟨by omega, h2, by omega, h4⟩
    · rw [if_neg hlt] at h
      cases h

theorem scanFrom_none (mem : Nat → Nat) (top : Nat) :
    ∀ (fuel s : Nat),
      (∀ q, s ≤ q → q < top → (q - s) % 16 = 0 → sigAt mem q = false) →
      scanFrom mem top fuel s = none := by
  intro fuel
  induction fuel with
  | zero => intro s _; rfl
  | succ n ih =>
    intro s hq
    have hs := hq s le_rfl
    simp only [scanFrom]
    by_cases hlt : s < top
    · rw [if_pos hlt, if_neg (by simp [hs hlt (by omega)])]
      exact ih (s + 16) fun q h1 h2 h3 => hq q (by omega) h2 (by omega)
    · rw [if_neg hlt]

theorem pollDS_spec (seq : Nat → Nat) :
    ∀ (fuel k : Nat) (vs : List Nat), pollDS seq fuel k = some vs →
      vs ≠ [] ∧ (∀ v ∈ vs.dropLast, Nat.testBit v 12 = true) ∧
        ∃ v, vs.getLast? = some v ∧ Nat.testBit v 12 = false := by
  intro fuel
  induction fuel with
  | zero => intro k vs h; simp [pollDS] at h
  | succ n ih =>
    intro k vs h
    simp only [pollDS] at h
    by_cases hb : (seq k % 2 ^ 32).testBit 12
    · rw [if_pos hb] at h
      cases hrec : pollDS seq n (k + 1) with
      | none => rw [hrec] at h; cases h
      | some vs1 =>
        rw [hrec] at h
        injection h with h
        subst h
        obtain ⟨hne, hdrop, v, hlast, hbit⟩ := ih (k + 1) vs1 hrec
        obtain ⟨w, ws, rfl⟩ := List.exists_cons_of_ne_nil hne
        refine ⟨by simp, ?_, v, ?_, hbit⟩
        · intro u hu
          rw [List.dropLast_cons₂] at hu
          rcases List.mem_cons.mp hu with rfl | hu2
          · exact hb
          · exact hdrop u hu2
        · rw [List.getLast?_cons_cons]
          exact hlast
    · rw [if_neg hb] at h
      injection h with h
      subst h
      refine ⟨by simp, by simp, seq k % 2 ^ 32, by simp, ?_⟩
      simpa using hb

theorem writeBytes_outside (m : Nat → Nat) (base : Nat) (bs : List Nat)
    (a : Nat) (h : a < base ∨ base + bs.length ≤ a) :
    writeBytes m base bs a = m a := by
  unfold writeBytes
  rw [if_neg (by omega)]

theorem pageCopy_inside (m : Nat → Nat) (dst src a : Nat)
    (h : dst ≤ a ∧ a < dst + 0x1000) :
    pageCopy m dst src a = m (src + (a - dst)) := by
  unfold pageCopy
  rw [if_pos h]

theorem apLoopGo_mem (env : SmpEnv) (descs : List CoreDesc) (a : Nat)
    (ha : ∀ i : Nat, a < 0x1000 + env.gdtpOff ∨
      0x1000 + env.gdtpOff + (env.gdtBytes i).length ≤ a) :
    ∀ (is : List Nat) (m : Nat → Nat), (apLoopGo env descs is m).1 a = m a := by
  intro is
  induction is with
  | nil => intro m; rfl
  | cons i is ih =>
    intro m
    simp only [apLoopGo]
    rw [ih]
    exact writeBytes_outside _ _ _ _ (ha i)




theorem descsFrom_length : ∀ (c : Nat) (l : List Nat),
    (descsFrom c l).length = l.length := by
  intro c l
  induction l generalizing c with
  | nil => rfl
  | cons x xs ih => simp [descsFrom, ih]

theorem flatten_length_ge (es : List (List Nat))
    (h : ∀ e ∈ es, 1 ≤ e.length) : es.length ≤ es.flatten.length := by
  induction es with
  | nil => simp
  | cons e es ih =>
    simp only [List.flatten_cons, List.length_append, List.length_cons]
    have h1 := h e (List.mem_cons_self _ _)
    have h2 := ih fun x hx => h x (List.mem_cons_of_mem _ hx)
    omega

theorem madtWalk_stuck : ∀ (fuel c : Nat) (rest : List Nat),
    madtWalk fuel (1 :: 0 :: rest) c = none := by
  intro fuel
  induction fuel with
  | zero => intro c rest; rfl
  | succ n ih =>
    intro c rest
    simp only [madtWalk]
    rw [if_neg (by simp)]
    simp only [List.getD_cons_succ, List.getD_cons_zero, List.drop_zero]
    exact ih c rest

theorem madtWalk_isSome :
    ∀ (fuel : Nat) (bs : List Nat) (c : Nat), bs.length < fuel →
      walkAdvances fuel bs = true → (madtWalk fuel bs c).isSome = true := by
  intro fuel
  induction fuel with
  | zero => intro bs c h _; omega
  | succ n ih =>
    intro bs c hlen hadv
    cases bs with
    | nil => rfl
    | cons b rest =>
      simp only [walkAdvances, Bool.and_eq_true, decide_eq_true_eq] at hadv
      obtain ⟨helen, hrec⟩ := hadv
      have hlen2 : ((b :: rest).drop ((b :: rest).getD 1 0)).length < n := by
        rw [List.length_drop]
        simp only [List.length_cons] at hlen ⊢
        omega
      simp only [madtWalk]
      by_cases hcond :
          ((b :: rest).getD 0 0 = 0 ∧ (b :: rest).getD 4 0 % 2 = 1)
      · rw [if_pos hcond]
        by_cases hc : c = 32
        · rw [if_pos hc]; rfl
        · rw [if_neg hc, Option.isSome_map']
          exact ih _ (c + 1) hlen2 hrec
      · rw [if_neg hcond]
        exact ih _ c hlen2 hrec

theorem madtWalk_structured :
    ∀ (es : List (List Nat)) (fuel c : Nat), (∀ e ∈ es, entryWf e) →
      c ≤ 32 → es.length < fuel →
      madtWalk fuel es.flatten c =
        some (descsFrom c ((enabledIds es).take (32 - c)),
          decide (32 < c + (enabledIds es).length)) := by
  intro es
  induction es with
  | nil =>
    intro fuel c _ hc hf
    cases fuel with
    | zero => omega
    | succ n =>
      simp only [List.flatten_nil, madtWalk, enabledIds, List.filter_nil,
        List.map_nil, List.take_nil, descsFrom, List.length_nil]
      rw [decide_eq_false (by omega)]
  | cons e es ih =>
    intro fuel c hwf hc hf
    obtain ⟨h1, h2, h3⟩ := hwf e (List.mem_cons_self _ _)
    have hwfes : ∀ x ∈ es, entryWf x := fun x hx =>
      hwf x (List.mem_cons_of_mem _ hx)
    cases fuel with
    | zero => simp at hf
    | succ n =>
      have hn : es.length < n := by
        simp only [List.length_cons] at hf
        omega
      obtain ⟨b, t, rfl⟩ : ∃ b t, e = b :: t := by
        cases e with
        | nil => simp at h2
        | cons b t => exact ⟨b, t, rfl⟩
      have hflat : ((b :: t) :: es).flatten = b :: (t ++ es.flatten) := by
        simp
      rw [hflat]
      simp only [madtWalk]
      rw [← List.cons_append]
      have g0 : ((b :: t) ++ es.flatten).getD 0 0 = (b :: t).getD 0 0 :=
        List.getD_append _ _ _ _ (by simp)
      have g1 : ((b :: t) ++ es.flatten).getD 1 0 = (b :: t).length := by
        rw [List.getD_append _ _ _ _ (by simp only [List.length_cons] at h2 ⊢; omega)]
        exact h1
      have gdrop : ((b :: t) ++ es.flatten).drop
          (((b :: t) ++ es.flatten).getD 1 0) = es.flatten := by
        rw [g1, List.drop_left]
      by_cases h0 : (b :: t).getD 0 0 = 0
      · have h5 : 5 ≤ (b :: t).length := h3 h0
        have g4 : ((b :: t) ++ es.flatten).getD 4 0 = (b :: t).getD 4 0 :=
          List.getD_append _ _ _ _ (by omega)
        have g3 : ((b :: t) ++ es.flatten).getD 3 0 = (b :: t).getD 3 0 :=
          List.getD_append _ _ _ _ (by omega)
        by_cases h4 : (b :: t).getD 4 0 % 2 = 1
        · have h0n := h0
          have h4n := h4
          simp at h0n h4n
          have henab : enabledIds ((b :: t) :: es) =
              (b :: t).getD 3 0 :: enabledIds es := by
            simp [enabledIds, List.filter_cons, h0n, h4n]
          rw [if_pos ⟨by rw [g0]; exact h0, by rw [g4]; exact h4⟩, henab]
          by_cases hc32 : c = 32
          · subst hc32
            rw [if_pos rfl]
            simp only [Nat.sub_self, List.take_zero, descsFrom,
              List.length_cons]
            rw [decide_eq_true (by omega)]
          · rw [if_neg hc32, gdrop,
              ih n (c + 1) hwfes (by omega) hn, Option.map_some', g3]
            have hsplit : 32 - c = (32 - (c + 1)) + 1 := by omega
            rw [hsplit, List.take_succ_cons]
            simp only [descsFrom, List.length_cons]
            refine congrArg some (Prod.ext rfl ?_)
            show decide (32 < c + 1 + (enabledIds es).length) =
              decide (32 < c + ((enabledIds es).length + 1))
            rw [decide_eq_decide]
            omega
        · have h0n := h0
          have h4n := h4
          simp at h0n h4n
          have henab : enabledIds ((b :: t) :: es) = enabledIds es := by
            simp [enabledIds, List.filter_cons, h0n, h4n]
          rw [if_neg (fun hand => h4 (g4 ▸ hand.2)), gdrop,
            ih n c hwfes hc hn, henab]
      · have h0n := h0
        simp only [List.getD_cons_zero] at h0n
        have henab : enabledIds ((b :: t) :: es) = enabledIds es := by
          simp [enabledIds, List.filter_cons, h0n]
        rw [if_neg (fun hand => h0 (g0 ▸ hand.1)), gdrop,
          ih n c hwfes hc hn, henab]

theorem vendorUpdate_kit (env : ApEnv) (c : ProcLocal) :
    (vendorUpdate env c).kernel_idle_task = c.kernel_idle_task := by
  unfold vendorUpdate
  split
  · rfl
  · split <;> rfl

theorem vendorUpdate_cp (env : ApEnv) (c : ProcLocal) :
    (vendorUpdate env c).current_process = c.current_process := by
  unfold vendorUpdate
  split
  · rfl
  · split <;> rfl

theorem loadProcInfo_preserves (env : ApEnv) (t : List ProcLocal) (i : Nat)
    (h : i < t.length) :
    ((loadProcInfo env t i).getD i default).kernel_idle_task =
      (t.getD i default).kernel_idle_task ∧
    ((loadProcInfo env t i).getD i default).current_process =
      (t.getD i default).current_process := by
  have hkit := vendorUpdate_kit env (t.getD i default)
  have hcp := vendorUpdate_cp env (t.getD i default)
  simp only [loadProcInfo]
  set v := vendorUpdate env (t.getD i default) with hv
  set t1 := t.set i v with ht1
  have h1 : i < t1.length := by rw [ht1, List.length_set]; exact h
  have hT1i : t1.getD i default = v := by rw [ht1]; exact getD_set_self _ _ _ _ h
  set N := (t1.getD i default).cpu_id with hN
  set t2 := t1.set N { t1.getD N default with cpu_model_name := "(unknown)" }
    with ht2
  have h2len : t2.length = t1.length := by rw [ht2, List.length_set]
  by_cases hNi : N = i
  · have hT2i : t2.getD i default =
        { t1.getD i default with cpu_model_name := "(unknown)" } := by
      rw [ht2, hNi]
      exact getD_set_self _ _ _ _ h1
    by_cases hext : 0x80000004 ≤ env.extMax
    · rw [if_pos hext]
      have hfin : (t2.set N
            { t2.getD N default with cpu_model_name := env.brand }).getD i
            default =
          { t2.getD N default with cpu_model_name := env.brand } := by
        rw [hNi]
        exact getD_set_self _ _ _ _ (by rw [h2len]; exact h1)
      rw [hfin]
      simp only [hNi, hT2i, hT1i]
      exact ⟨hkit, hcp⟩
    · rw [if_neg hext]
      simp only [hT2i, hT1i]
      exact ⟨hkit, hcp⟩
  · have hT2i : t2.getD i default = t1.getD i default := by
      rw [ht2]
      exact getD_set_ne _ _ _ _ _ hNi
    by_cases hext : 0x80000004 ≤ env.extMax
    · rw [if_pos hext]
      have hfin : (t2.set N
            { t2.getD N default with cpu_model_name := env.brand }).getD i
            default = t2.getD i default :=
        getD_set_ne _ _ _ _ _ hNi
      rw [hfin]
      simp only [hT2i, hT1i]
      exact ⟨hkit, hcp⟩
    · rw [if_neg hext]
      simp only [hT2i, hT1i]
      exact ⟨hkit, hcp⟩

/-- Claim C1: for every MADT entry region made of well-formed entries of
which K are enabled type-0 (processor-local APIC) entries, the MADT walk of
`smp_initialize` (run with the fuel `smp_initialize` supplies) produces
exactly `min K 32` per-core descriptors, in MADT order, the j-th having
`cpu_id = j` and `lapic_id` equal to that entry's APIC id byte `entry[3]`,
and it reports the "too many cores" diagnostic exactly when `K > 32`. -/
theorem claim1_madt_parse (es : List (List Nat))
    (hwf : ∀ e ∈ es, entryWf e) :
    madtWalk (es.flatten.length + 34) es.flatten 0 =
      some (descsFrom 0 ((enabledIds es).take 32),
        decide (32 < (enabledIds es).length)) ∧
    (descsFrom 0 ((enabledIds es).take 32)).length =
      min (enabledIds es).length 32 := by
  constructor
  · have hlen : es.length < es.flatten.length + 34 := by
      have := flatten_length_ge es fun e he => by
        have := (hwf e he).2.1
        omega
      omega
    have h := madtWalk_structured es (es.flatten.length + 34) 0 hwf
      (by omega) hlen
    simpa using h
  · rw [descsFrom_length, List.length_take]
    omega

/-- Witness for C1 at the concrete entry list `wEs` (one enabled type-0
entry, one disabled, one of type 1). -/
theorem claim1_witness :
    (∀ e ∈ wEs, entryWf e) ∧
    madtWalk (wEs.flatten.length + 34) wEs.flatten 0 =
      some (descsFrom 0 ((enabledIds wEs).take 32),
        decide (32 < (enabledIds wEs).length)) :=
  ⟨by decide, (claim1_madt_parse wEs (by decide)).1⟩

/-- Counterexample to C2 as stated: the locator compares only the seven
bytes "RSD PTR" (smp.c lines 237-243), so the buffer "RSD PTRX" — whose
byte 7 is 88 ('X'), not the trailing space the full 8-byte signature
requires — is reported as a hit at offset 0. -/
theorem claim2_counterexample :
    rsdpScan cexMem 0 16 = some 0 ∧ cexMem 7 ≠ 32 := by
  exact ⟨by decide, by decide⟩

/-- Claim C2 (amended): the locator walks the scan range in 16-byte strides
and reports a hit exactly at a stride-reachable offset where the 7-byte
prefix "RSD PTR" of the signature appears (the trailing space is not
checked); a buffer whose signature occurrences all lie at offsets not
reachable by the 16-byte stride from the scan base is not found. -/
theorem claim2_rsdp_scan (mem : Nat → Nat) (base top : Nat) :
    (∀ p, rsdpScan mem base top = some p →
      base ≤ p ∧ p < top ∧ (p - base) % 16 = 0 ∧ sigAt mem p = true) ∧
    ((∀ q, base ≤ q → q < top → (q - base) % 16 = 0 → sigAt mem q = false) →
      rsdpScan mem base top = none) :=
  ⟨fun p h => scanFrom_sound mem top _ base p h,
   fun h => scanFrom_none mem top _ base h⟩

/-- Witness for C2: the hit direction at `cexMem` (signature at offset 0)
and the not-found direction at `memMisaligned` (signature only at offset 8,
unreachable from base 0 in 16-byte strides). -/
theorem claim2_witness :
    (0 ≤ 0 ∧ 0 < 16 ∧ (0 - 0) % 16 = 0 ∧ sigAt cexMem 0 = true) ∧
    rsdpScan memMisaligned 0 32 = none := by
  constructor
  · exact (claim2_rsdp_scan cexMem 0 16).1 0 (by decide)
  · refine (claim2_rsdp_scan memMisaligned 0 32).2 ?_
    intro q h1 h2 h3
    have hq : q = 0 ∨ q = 16 := by omega
    rcases hq with rfl | rfl <;> decide

/-- Counterexample to C3 as stated: with the legacy EBDA fallback base
0xE0000 the scan top stays at the default 0x100000 (smp.c lines 212-213 are
never overwritten on that path), not 0xE0000 + 0x100000. -/
theorem claim3_counterexample :
    (scanRange legacyBoot).1 = 0xE0000 ∧
    (scanRange legacyBoot).2 ≠ (scanRange legacyBoot).1 + 0x100000 := by
  exact ⟨by decide, by decide⟩

/-- Claim C3 (amended): `smp_initialize` selects the scan base from the
first matching source — multiboot v2 tag 14 then 15, multiboot v1
`config_table`, the `acpi=<hex>` override, then the legacy base 0xE0000 —
and each of the three explicit sources scans up to base + 0x100000, while
the legacy fallback scans the fixed range [0xE0000, 0x100000). -/
theorem claim3_scan_base (bi : BootInfo) :
    (bi.is2 = true →
      scanRange bi = (mb2tag bi + 8, mb2tag bi + 8 + 0x100000)) ∧
    (bi.is2 = false → bi.configTable ≠ 0 →
      scanRange bi = (bi.configTable, bi.configTable + 0x100000)) ∧
    (bi.is2 = false → bi.configTable = 0 → ∀ s, bi.acpiArg = some s →
      scanRange bi = (xtoi s, xtoi s + 0x100000)) ∧
    (bi.is2 = false → bi.configTable = 0 → bi.acpiArg = none →
      scanRange bi = (0xE0000, 0x100000)) := by
  refine ⟨fun h2 => ?_, fun h2 hct => ?_, fun h2 hct s hs => ?_,
    fun h2 hct hn => ?_⟩
  · simp [scanRange, h2]
  · simp [scanRange, h2, hct]
  · simp [scanRange, h2, hct, hs]
  · simp [scanRange, h2, hct, hn]

/-- Witness for C3: the legacy fallback case and the multiboot v1
`config_table` case. -/
theorem claim3_witness :
    scanRange legacyBoot = (0xE0000, 0x100000) ∧
    scanRange wBoot = (0x500, 0x500 + 0x100000) :=
  ⟨(claim3_scan_base legacyBoot).2.2.2 rfl rfl rfl,
   (claim3_scan_base wBoot).2.1 rfl (by decide)⟩

/-- Claim C8: `lapic_send_ipi(i, cmd)` writes `i << 24` to LAPIC offset
0x310 before writing `cmd` to offset 0x300, then polls bit 12 of offset
0x300 until it reads zero (all but the final polled value have bit 12 set,
the final one has it clear); precondition `lapic_final ≠ 0`. -/
theorem claim8_ipi_encoding (lf : Nat) (seq : Nat → Nat) (fuel i val : Nat)
    (t : IpiTrace) (hlf : lf ≠ 0)
    (h : lapic_send_ipi lf seq fuel i val = some t) :
    t.writes = [(lf + 0x310, i * 2 ^ 24 % 2 ^ 32),
      (lf + 0x300, val % 2 ^ 32)] ∧
    t.reads ≠ [] ∧ (∀ v ∈ t.reads.dropLast, Nat.testBit v 12 = true) ∧
    ∃ v, t.reads.getLast? = some v ∧ Nat.testBit v 12 = false := by
  unfold lapic_send_ipi at h
  cases hp : pollDS seq fuel 0 with
  | none => rw [hp] at h; cases h
  | some vs =>
    rw [hp] at h
    injection h with h
    subst h
    obtain ⟨h1, h2, h3⟩ := pollDS_spec seq fuel 0 vs hp
    exact ⟨rfl, h1, h2, h3⟩

/-- Witness for C8 at a concrete IPI: target 3, command 0x4500, one busy
poll followed by a clear delivery-status read. -/
theorem claim8_witness :
    ((lapic_send_ipi 0x8000 wSeq 5 3 0x4500).map fun t => t.writes) =
      some [(0x8000 + 0x310, 3 * 2 ^ 24 % 2 ^ 32),
        (0x8000 + 0x300, 0x4500 % 2 ^ 32)] := by
  cases hE : lapic_send_ipi 0x8000 wSeq 5 3 0x4500 with
  | none => exact absurd hE (by decide)
  | some t =>
    obtain ⟨hw, _, _, _⟩ :=
      claim8_ipi_encoding 0x8000 wSeq 5 3 0x4500 t (by decide) hE
    simp [hw]

/-- Claim C9: `arch_wakeup_others`, `arch_tick_others` and
`arch_tlb_shootdown` return immediately with no LAPIC MMIO activity
whenever `lapic_final = 0` or `processor_count < 2`, for every shootdown
address. -/
theorem claim9_ipi_guards (lf pc : Nat) (seq : Nat → Nat) (fuel vaddr : Nat)
    (h : lf = 0 ∨ pc < 2) :
    arch_wakeup_others lf pc seq fuel = some { writes := [], reads := [] } ∧
    arch_tick_others lf pc seq fuel = some { writes := [], reads := [] } ∧
    arch_tlb_shootdown lf pc vaddr seq fuel =
      some { writes := [], reads := [] } := by
  unfold arch_wakeup_others arch_tick_others arch_tlb_shootdown
  rw [if_pos h, if_pos h, if_pos h]
  exact ⟨rfl, rfl, rfl⟩

/-- Witness for C9: `arch_tlb_shootdown(0xDEAD000)` on a single-CPU system
performs no MMIO. -/
theorem claim9_witness :
    arch_tlb_shootdown 0 1 0xDEAD000 wSeq 1 =
      some { writes := [], reads := [] } :=
  (claim9_ipi_guards 0 1 wSeq 1 0xDEAD000 (Or.inl rfl)).2.2

/-- Claim C10: the MADT entry walk advances by each entry's length byte
`entry[1]`; whenever every visited position has a length byte of at least 1
(decided by `walkAdvances`) the walk terminates within the fuel
`smp_initialize` supplies, and the precondition is required: a region
starting with a (type-1) entry whose length byte is 0 never advances, so
the walk fails to terminate for every fuel. -/
theorem claim10_walk_termination :
    (∀ (bytes : List Nat) (c : Nat),
        walkAdvances (bytes.length + 34) bytes = true →
        (madtWalk (bytes.length + 34) bytes c).isSome = true) ∧
    (∀ (fuel c : Nat) (rest : List Nat),
        madtWalk fuel (1 :: 0 :: rest) c = none) :=
  ⟨fun bytes c h => madtWalk_isSome _ bytes c (by omega) h,
   fun fuel c rest => madtWalk_stuck fuel c rest⟩

/-- Witness for C10: the walk terminates on one well-formed type-0 entry
and diverges on the two-byte region [1, 0] (type 1, length byte 0). -/
theorem claim10_witness :
    walkAdvances ([0, 8, 0, 5, 1, 0, 0, 0].length + 34)
      [0, 8, 0, 5, 1, 0, 0, 0] = true ∧
    (madtWalk ([0, 8, 0, 5, 1, 0, 0, 0].length + 34)
      [0, 8, 0, 5, 1, 0, 0, 0] 0).isSome = true ∧
    madtWalk 37 [1, 0] 0 = none :=
  ⟨by decide, claim10_walk_termination.1 _ 0 (by decide),
   claim10_walk_termination.2 37 0 []⟩


theorem smp_init_none (env : SmpEnv)
    (hs : rsdpScan env.mem (scanRange env.boot).1 (scanRange env.boot).2 =
      none) :
    smp_init env = some
      { pc := env.pc0, lf := env.lf0, descs := [],
        logs := ["smp: No RSD PTR found"], mem := env.mem, ipis := [],
        frameCleared := none, reachedRsdt := false, exit := .noRsdp } := by
  unfold smp_init
  rw [hs]

theorem smp_init_found (env : SmpEnv) (p : Nat)
    (hs : rsdpScan env.mem (scanRange env.boot).1 (scanRange env.boot).2 =
      some p) :
    smp_init env = smpChecksumStage env p := by
  unfold smp_init
  rw [hs]

theorem u32count_eq (len : Nat) (h : len < 2 ^ 32) :
    u32count len = (len + 2 ^ 32 - 36) % 2 ^ 32 / 4 := by
  unfold u32count
  split <;> omega

theorem smpRsdtStage_none (env : SmpEnv) (p : Nat)
    (hw : rsdtWalk env.mem (read32 env.mem (p + 16)) 0
      (u32count (read32 env.mem (read32 env.mem (p + 16) + 4)))
      0 [] 0 = none) :
    smpRsdtStage env p = none := by
  unfold smpRsdtStage
  rw [hw]

theorem smpRsdtStage_eq (env : SmpEnv) (p cores : Nat)
    (descs : List CoreDesc) (lapicBase : Nat) (tooMany : Bool)
    (hw : rsdtWalk env.mem (read32 env.mem (p + 16)) 0
      (u32count (read32 env.mem (read32 env.mem (p + 16) + 4)))
      0 [] 0 = some (cores, descs, lapicBase, tooMany)) :
    smpRsdtStage env p = smpPostWalk env cores descs lapicBase tooMany := by
  unfold smpRsdtStage
  rw [hw]

/-- Claim C4: when the command line contains `nosmp` (and the globals hold
their boot values `processor_count = 1`, `lapic_final = 0`),
`smp_initialize` terminates leaving `processor_count = 1` and
`lapic_final = 0` regardless of the firmware tables' contents, and the
opt-out is silent: when execution leaves through the `nosmp` return (smp.c
line 269), no log line has been emitted. -/
theorem claim4_nosmp (env : SmpEnv) (hn : env.nosmp = true)
    (hpc : env.pc0 = 1) (hlf : env.lf0 = 0) :
    ∃ r, smp_init env = some r ∧ r.pc = 1 ∧ r.lf = 0 ∧
      (r.exit = SmpExit.nosmpExit → r.logs = []) := by
  cases hs : rsdpScan env.mem (scanRange env.boot).1 (scanRange env.boot).2
      with
  | none =>
    rw [smp_init_none env hs]
    exact ⟨_, rfl, hpc, hlf, fun h => nomatch h⟩
  | some p =>
    rw [smp_init_found env p hs]
    unfold smpChecksumStage
    by_cases hch : rsdpChecksum env.mem p ≠ 0 ∧ env.noacpichecksum = false
    · rw [if_pos hch]
      exact ⟨_, rfl, hpc, hlf, fun h => nomatch h⟩
    · rw [if_neg hch, if_pos hn]
      exact ⟨_, rfl, hpc, hlf, fun _ => rfl⟩

/-- Witness for C4 at `env4w` (valid tables, `nosmp` present). -/
theorem claim4_witness :
    ((smp_init env4w).map fun r => r.pc) = some 1 ∧
    ((smp_init env4w).map fun r => r.lf) = some 0 ∧
    ((smp_init env4w).map fun r => r.logs) = some [] := by
  obtain ⟨r, hr, h1, h2, h3⟩ := claim4_nosmp env4w rfl rfl rfl
  have hexit : r.exit = SmpExit.nosmpExit := by
    have hx : ((smp_init env4w).map fun r => r.exit) =
        some SmpExit.nosmpExit := by rfl
    rw [hr] at hx
    simpa using hx
  rw [hr]
  simp [h1, h2, h3 hexit]

/-- Counterexample to C5 as stated: `ap_main` calls `spawn_kidle(0)` (smp.c
line 131) for every AP, not `spawn_kidle(cpu_id)`; with a `spawn` that
distinguishes its argument and AP index 1 (whose `cpu_id` is 1), the stored
idle task is `spawn 0 = 7`, not `spawn cpu_id = 17`. -/
theorem claim5_counterexample :
    (cexTable.getD 1 default).cpu_id = 1 ∧
    ((ap_main cexApEnv 1 cexTable).1.getD 1 default).kernel_idle_task =
      some (cexApEnv.spawn 0) ∧
    ((ap_main cexApEnv 1 cexTable).1.getD 1 default).kernel_idle_task ≠
      some (cexApEnv.spawn 1) := by
  exact ⟨by decide, by decide, by decide⟩

/-- Claim C5 (amended): for every AP index i, `ap_main` spawns the kernel
idle task by calling `spawn_kidle` with the constant argument 0, and stores
the returned task as both `kernel_idle_task` and `current_process` of
`processor_local_data[i]`. -/
theorem table_update_idle (env : ApEnv) (t : List ProcLocal) (i : Nat)
    (c1 : ProcLocal) (h : i < t.length) :
    ((loadProcInfo env (t.set i c1) i).getD i default).kernel_idle_task =
      c1.kernel_idle_task ∧
    ((loadProcInfo env (t.set i c1) i).getD i default).current_process =
      c1.current_process := by
  have hlen : i < (t.set i c1).length := by rw [List.length_set]; exact h
  have hp := loadProcInfo_preserves env (t.set i c1) i hlen
  have hti : (t.set i c1).getD i default = c1 := getD_set_self _ _ _ _ h
  rw [hp.1, hp.2, hti]
  exact ⟨rfl, rfl⟩

theorem claim5_ap_idle (env : ApEnv) (i : Nat) (t : List ProcLocal)
    (h : i < t.length) :
    ((ap_main env i t).1.getD i default).kernel_idle_task =
      some (env.spawn 0) ∧
    ((ap_main env i t).1.getD i default).current_process =
      some (env.spawn 0) := by
  simp only [ap_main]
  exact table_update_idle env t i _ h

/-- Witness for C5 at AP index 1 of a two-slot table. -/
theorem claim5_witness :
    1 < cexTable.length ∧
    ((ap_main cexApEnv 1 cexTable).1.getD 1 default).kernel_idle_task =
      some (cexApEnv.spawn 0) :=
  ⟨by decide, (claim5_ap_idle cexApEnv 1 cexTable (by decide)).1⟩

/-- Claim C7: a discovered RSDP whose 8-bit byte sum is nonzero makes
`smp_initialize` log the bad-checksum message and return single-CPU
(`processor_count` and `lapic_final` keep their boot values 1 and 0),
unless the command line contains `noacpichecksum`, in which case (absent
`nosmp`) parsing proceeds to the RSDT/MADT. -/
theorem claim7_checksum_gate :
    (∀ (env : SmpEnv) (p : Nat), env.pc0 = 1 → env.lf0 = 0 →
      rsdpScan env.mem (scanRange env.boot).1 (scanRange env.boot).2 =
        some p →
      rsdpChecksum env.mem p ≠ 0 → env.noacpichecksum = false →
      ∃ r, smp_init env = some r ∧ r.exit = SmpExit.badChecksum ∧
        r.logs = [badChecksumMsg] ∧ r.pc = 1 ∧ r.lf = 0) ∧
    (∀ (env : SmpEnv) (p : Nat),
      rsdpScan env.mem (scanRange env.boot).1 (scanRange env.boot).2 =
        some p →
      rsdpChecksum env.mem p ≠ 0 → env.noacpichecksum = true →
      env.nosmp = false → ∀ r, smp_init env = some r →
      r.reachedRsdt = true) := by
  constructor
  · intro env p hpc hlf hscan hck hno
    rw [smp_init_found env p hscan]
    unfold smpChecksumStage
    rw [if_pos ⟨hck, hno⟩]
    exact ⟨_, rfl, rfl, rfl, hpc, hlf⟩
  · intro env p hscan hck hno hns r hr
    rw [smp_init_found env p hscan] at hr
    unfold smpChecksumStage at hr
    rw [if_neg (by simp [hno]), if_neg (by simp [hns])] at hr
    cases hw : rsdtWalk env.mem (read32 env.mem (p + 16)) 0
        (u32count (read32 env.mem (read32 env.mem (p + 16) + 4)))
        0 [] 0 with
    | none =>
      rw [smpRsdtStage_none env p hw] at hr
      cases hr
    | some quad =>
      obtain ⟨cores, descs, lapicBase, tooMany⟩ := quad
      rw [smpRsdtStage_eq env p cores descs lapicBase tooMany hw] at hr
      unfold smpPostWalk at hr
      by_cases hlb : lapicBase = 0
      · rw [if_pos hlb] at hr
        injection hr with h
        subst h
        rfl
      · rw [if_neg hlb] at hr
        by_cases hcs : cores ≤ 1
        · rw [if_pos hcs] at hr
          injection hr with h
          subst h
          rfl
        · rw [if_neg hcs] at hr
          injection hr with h
          subst h
          rfl

/-- Witness for C7: `envA7` (bad checksum, no override) logs and aborts;
`envB7` (bad checksum, `noacpichecksum`) reaches the RSDT parse. -/
theorem claim7_witness :
    ((smp_init envA7).map fun r => r.exit) = some SmpExit.badChecksum ∧
    ((smp_init envA7).map fun r => r.logs) = some [badChecksumMsg] ∧
    ((smp_init envB7).map fun r => r.reachedRsdt) = some true := by
  obtain ⟨r, hr, he, hl, _, _⟩ :=
    claim7_checksum_gate.1 envA7 0x500 rfl rfl rfl (by decide) rfl
  refine ⟨?_, ?_, ?_⟩
  · rw [hr]
    simp [he]
  · rw [hr]
    simp [hl]
  · cases hE : smp_init envB7 with
    | none =>
      have hsome : (smp_init envB7).isSome = true := by rfl
      rw [hE] at hsome
      cases hsome
    | some r2 =>
      have := claim7_checksum_gate.2 envB7 0x500 rfl (by decide) rfl rfl r2 hE
      simp [this]

/-- Claim C6: after a successful multi-core bring-up — under the
collaborator contracts that the bootstrap blob fits in one page, the GDT
patch stays within the trampoline page, and the scratch frame is not the
trampoline frame — the 4096 bytes at physical 0x1000 equal the bytes that
were there before `smp_initialize` ran: they are copied to the scratch
frame before the blob is installed and copied back only after the per-AP
loop, after which the scratch frame is freed (`mmu_frame_clear`). -/
theorem claim6_trampoline (env : SmpEnv) (r : SmpResult)
    (hr : smp_init env = some r) (hex : r.exit = SmpExit.success)
    (hblob : env.blob.length ≤ 0x1000)
    (hgdt : ∀ i, env.gdtpOff + (env.gdtBytes i).length ≤ 0x1000)
    (hff : env.freshFrame ≠ 1) :
    (∀ a, 0x1000 ≤ a → a < 0x2000 → r.mem a = env.mem a) ∧
    r.frameCleared = some (env.freshFrame * 4096) := by
  cases hs : rsdpScan env.mem (scanRange env.boot).1 (scanRange env.boot).2
      with
  | none =>
    rw [smp_init_none env hs] at hr
    injection hr with h
    subst h
    simp at hex
  | some p =>
    rw [smp_init_found env p hs] at hr
    unfold smpChecksumStage at hr
    by_cases hch : rsdpChecksum env.mem p ≠ 0 ∧ env.noacpichecksum = false
    · rw [if_pos hch] at hr
      injection hr with h
      subst h
      simp at hex
    · rw [if_neg hch] at hr
      by_cases hns : env.nosmp = true
      · rw [if_pos hns] at hr
        injection hr with h
        subst h
        simp at hex
      · rw [if_neg hns] at hr
        cases hw : rsdtWalk env.mem (read32 env.mem (p + 16)) 0
            (u32count (read32 env.mem (read32 env.mem (p + 16) + 4)))
            0 [] 0 with
        | none =>
          rw [smpRsdtStage_none env p hw] at hr
          cases hr
        | some quad =>
          obtain ⟨cores, descs, lapicBase, tooMany⟩ := quad
          rw [smpRsdtStage_eq env p cores descs lapicBase tooMany hw] at hr
          unfold smpPostWalk at hr
          by_cases hlb : lapicBase = 0
          · rw [if_pos hlb] at hr
            injection hr with h
            subst h
            simp at hex
          · rw [if_neg hlb] at hr
            by_cases hcs : cores ≤ 1
            · rw [if_pos hcs] at hr
              injection hr with h
              subst h
              simp at hex
            · rw [if_neg hcs] at hr
              injection hr with h
              refine ⟨?_, ?_⟩
              · intro a ha1 ha2
                have hmem : r.mem = pageCopy
                    (apLoopGo env descs (List.range' 1 (cores - 1))
                      (writeBytes
                        (pageCopy env.mem (env.freshFrame * 4096) 0x1000)
                        0x1000 env.blob)).1
                    0x1000 (env.freshFrame * 4096) := by
                  rw [← h]
                rw [hmem, pageCopy_inside _ _ _ _ ⟨ha1, by omega⟩]
                rw [apLoopGo_mem env descs _
                  (fun i => by have := hgdt i; omega)]
                rw [writeBytes_outside _ _ _ _ (by omega)]
                rw [pageCopy_inside _ _ _ _ ⟨by omega, by omega⟩]
                congr 1
                omega
              · rw [← h]

/-- Witness for C6 at the two-core environment `wEnv`: bring-up succeeds
and byte 0x1000 is restored, with the scratch frame (frame 5) freed. -/
theorem claim6_witness :
    (smp_init wEnv).isSome = true ∧
    ((smp_init wEnv).map fun r => r.mem 0x1000) = some (wEnv.mem 0x1000) ∧
    ((smp_init wEnv).map fun r => r.frameCleared) =
      some (some (5 * 4096)) := by
  cases hE : smp_init wEnv with
  | none =>
    have hsome : (smp_init wEnv).isSome = true := by rfl
    rw [hE] at hsome
    cases hsome
  | some r =>
    have hex : r.exit = SmpExit.success := by
      have hx : ((smp_init wEnv).map fun r => r.exit) =
          some SmpExit.success := by rfl
      rw [hE] at hx
      simpa using hx
    obtain ⟨hm, hfc⟩ := claim6_trampoline wEnv r hE hex (by decide)
      (fun _ => by
        show (64 : Nat) + ([9, 9] : List Nat).length ≤ 4096
        decide)
      (by decide)
    refine ⟨rfl, ?_, ?_⟩
    · simp [hm 0x1000 (by decide) (by decide)]
    · simp [hfc, wEnv]
